import Mathlib

/-!
Verification of the fido-transaction-api core logic: the asynchronous
settlement handler (`app/events/handlers/user_balance_update.py` together
with `app/services/user_service.py` and `app/services/transaction_service.py`),
the Redis fan-out queue (`app/services/queue.py`), and the cache-key
derivation and route-caching wrapper (`app/cache.py`,
`app/api/routes/transactions.py`).

Conventions of the embedding:
* machine integers and money amounts are `Int`/`Nat` (the source stores
  balances and amounts as SQL `Integer` columns);
* timestamps (`datetime`) are abstract `Nat` clock ticks;
* the database session always finds the referenced user and transaction
  rows (the claims under study concern settlements of existing rows);
* whether the Redis publish / pipeline transport succeeds is an explicit
  `Bool` input, since the source only observes it as raise-or-return;
* fallible Python code that raises is modelled with `Except` or an
  explicit `raised` flag.
-/

namespace FidoApi

/-- Transaction types (`TransactionType` in `app/db/transaction_model.py`).
`other` stands for any value that is neither CREDIT nor DEBIT, which the
handler sends to its `else` branch. -/
inductive TxType where
  | credit
  | debit
  | other
deriving DecidableEq, Repr

/-- Transaction statuses (`TransactionStatus` in `app/db/transaction_model.py`). -/
inductive TxStatus where
  | pending
  | success
  | failed
deriving DecidableEq, Repr

/-- The durable state the settlement handler touches: one user's `balance`
column and the settled transaction's `transaction_status` column.  Each
repository `update` in the source commits immediately
(`BaseRepository.update` calls `self.db.commit()`). -/
structure SettleState where
  balance : Int
  status : TxStatus
deriving DecidableEq, Repr

/-- Model of `UserService.credit_user` (`app/services/user_service.py` line 27):
`user.balance += (amount * 100)`.  The user row is assumed found. -/
def credit_user (balance amount : Int) : Int :=
  balance + amount * 100

/-- Model of `UserService.debit_user` (`app/services/user_service.py` lines 37-41):
raises `Insufficient balance` when `user.balance < amount`, otherwise
`user.balance -= amount`. -/
def debit_user (balance amount : Int) : Except String Int :=
  if balance < amount then Except.error "Insufficient balance"
  else Except.ok (balance - amount)

/-- Outcome of one handler invocation: the committed durable state and
whether the handler re-raised an exception (`raise e` in its `except`
block). -/
structure HandleResult where
  state : SettleState
  raised : Bool
deriving DecidableEq, Repr

/-- Model of `handle_user_balance_update` (`app/events/handlers/user_balance_update.py`
lines 53-118), invoked with the dispatched payload's `transaction_type` and
`amount` against the current durable state:
* CREDIT: `credit_user`, status := SUCCESS, commit, then publish; if the
  publish raises, the `except` block rolls back (a no-op after the commit),
  sets the status to FAILED, commits, and re-raises;
* DEBIT: `debit_user`; on `Insufficient balance` the `except` block leaves
  the balance unchanged, sets FAILED and re-raises; otherwise as CREDIT;
* any other type: status := FAILED, commit, `raise ValueError` (the
  `except` block then sets FAILED again).
The handler never reads the transaction's current status. -/
def handle_user_balance_update (ty : TxType) (amount : Int) (publishOk : Bool)
    (st : SettleState) : HandleResult :=
  match ty with
  | .credit =>
    let b := credit_user st.balance amount
    if publishOk then ⟨⟨b, .success⟩, false⟩
    else ⟨⟨b, .failed⟩, true⟩
  | .debit =>
    match debit_user st.balance amount with
    | .ok b =>
      if publishOk then ⟨⟨b, .success⟩, false⟩
      else ⟨⟨b, .failed⟩, true⟩
    | .error _ => ⟨⟨st.balance, .failed⟩, true⟩
  | .other => ⟨⟨st.balance, .failed⟩, true⟩

/-- A `Transaction` row as the settlement pipeline sees it
(`app/db/transaction_model.py`): stored integer amount, type, and the
client-supplied occurrence timestamp `transaction_date`. -/
structure Transaction where
  transaction_amount : Int
  transaction_type : TxType
  transaction_date : Nat
deriving DecidableEq, Repr

/-- The `amount` field of the payload dispatched by
`TransactionService.create_transaction`
(`app/services/transaction_service.py` line 25):
`amount=transaction.transaction_amount * 100`. -/
def dispatch_amount (t : Transaction) : Int :=
  t.transaction_amount * 100

/-- One settlement of a freshly created transaction: the creation path
dispatches the payload and the handler processes it. -/
def settle_transaction (t : Transaction) (publishOk : Bool) (st : SettleState) :
    HandleResult :=
  handle_user_balance_update t.transaction_type (dispatch_amount t) publishOk st

/-- Settle a sequence of transactions against one user, each starting from
status PENDING; returns the final balance and each transaction's final
status.  The `Bool` of each pair says whether the queue publish for that
settlement succeeds. -/
def settleAll (txs : List (Transaction × Bool)) (b0 : Int) : Int × List TxStatus :=
  txs.foldl
    (fun acc p =>
      let r := settle_transaction p.1 p.2 ⟨acc.1, TxStatus.pending⟩
      (r.state.balance, acc.2 ++ [r.state.status]))
    (b0, [])

/-- Modelled from the spec: the balance formula the spec asserts — the
signed sum of the settled transactions' amounts, counting a SUCCESS CREDIT
as `+amount`, a SUCCESS DEBIT as `-amount`, and anything FAILED as `0`. -/
def spec_signed_sum : List (Transaction × TxStatus) → Int
  | [] => 0
  | p :: rest =>
    (if p.2 = TxStatus.success then
       match p.1.transaction_type with
       | .credit => p.1.transaction_amount
       | .debit => -p.1.transaction_amount
       | .other => 0
     else 0) + spec_signed_sum rest

/-- C1 (code_bug evaluation).  Balance invariant: the claim says a settled
CREDIT adds the transaction's amount to the balance.  Evaluating the code
at a user with balance 0 and one CREDIT transaction of stored amount 500
that settles SUCCESS: the dispatched payload carries `500 * 100 = 50000`
and `credit_user` adds `50000 * 100`, so the final balance is `5000000`,
while the claim's signed sum yields `500`. -/
theorem C1_code_eval :
    settleAll [(⟨500, TxType.credit, 0⟩, true)] 0 = (5000000, [TxStatus.success]) ∧
    (0 : Int) + spec_signed_sum [(⟨500, TxType.credit, 0⟩, TxStatus.success)] = 500 ∧
    (5000000 : Int) ≠ 500 := by
  refine ⟨rfl, rfl, by decide⟩

/-- C2 (counterexample).  The claim asserts that settling a DEBIT of 3000
for a user with balance 1000 yields balance -2000 and status SUCCESS.  In
the code `debit_user` raises `Insufficient balance` (`user.balance <
amount`), the handler's `except` block marks the transaction FAILED, and
the balance is unchanged. -/
theorem C2_counterexample :
    handle_user_balance_update TxType.debit 3000 true ⟨1000, TxStatus.pending⟩ =
      ⟨⟨1000, TxStatus.failed⟩, true⟩ ∧
    (⟨1000, TxStatus.failed⟩ : SettleState) ≠ ⟨-2000, TxStatus.success⟩ :=
  ⟨rfl, by decide⟩

/-- C2 (amended).  Debit floor enforced: settling a DEBIT with
`balance < amount` raises insufficient-balance, marks the transaction
FAILED and leaves the balance unchanged; a DEBIT with `amount ≤ balance`
subtracts the amount and ends SUCCESS (when the publish succeeds). -/
theorem C2_amended_debit_floor (b a : Int) (s : TxStatus) :
    handle_user_balance_update TxType.debit a true ⟨b, s⟩ =
      if b < a then ⟨⟨b, TxStatus.failed⟩, true⟩
      else ⟨⟨b - a, TxStatus.success⟩, false⟩ := by
  by_cases h : b < a <;> simp [handle_user_balance_update, debit_user, h]

/-- C3 (counterexample).  The claim says a settlement call for a
transaction already in a terminal state changes neither status nor
balance.  Invoking the handler for a CREDIT of 500 on a transaction whose
status is already SUCCESS re-mutates the balance from 0 to 50000. -/
theorem C3_counterexample :
    (handle_user_balance_update TxType.credit 500 true
        ⟨0, TxStatus.success⟩).state.balance = 50000 ∧
    (50000 : Int) ≠ 0 :=
  ⟨rfl, by decide⟩

/-- C3 (amended).  No terminal-state detection: the handler never reads the
transaction's stored status, so a repeated settlement call behaves exactly
as a first one — in particular a retried CREDIT re-credits the balance. -/
theorem C3_amended_status_oblivious (ty : TxType) (a : Int) (ok : Bool) (b : Int)
    (s₁ s₂ : TxStatus) :
    handle_user_balance_update ty a ok ⟨b, s₁⟩ =
      handle_user_balance_update ty a ok ⟨b, s₂⟩ ∧
    (handle_user_balance_update TxType.credit a true ⟨b, s₁⟩).state.balance =
      b + a * 100 := by
  constructor
  · cases ty <;> rfl
  · rfl

/-- C4 (counterexample).  The claim says that when the publish fails after
a successful settlement the status remains SUCCESS and the failure is not
surfaced.  In the code the `except` block sets the status to FAILED (after
the committed balance mutation, which is kept) and re-raises. -/
theorem C4_counterexample :
    (handle_user_balance_update TxType.credit 500 false
        ⟨0, TxStatus.pending⟩).state = ⟨50000, TxStatus.failed⟩ ∧
    TxStatus.failed ≠ TxStatus.success :=
  ⟨rfl, by decide⟩

/-- C4 (amended).  Publish failure keeps the committed balance mutation
(the rollback after the commit is a no-op) but does not keep SUCCESS: the
handler's error path overwrites the status with FAILED and re-raises the
error. -/
theorem C4_amended_publish_failure (a b : Int) (s : TxStatus) :
    handle_user_balance_update TxType.credit a false ⟨b, s⟩ =
      ⟨⟨b + a * 100, TxStatus.failed⟩, true⟩ ∧
    handle_user_balance_update TxType.debit a false ⟨b, s⟩ =
      (if b < a then ⟨⟨b, TxStatus.failed⟩, true⟩
       else ⟨⟨b - a, TxStatus.failed⟩, true⟩) := by
  refine ⟨rfl, ?_⟩
  by_cases h : b < a <;> simp [handle_user_balance_update, debit_user, h]

/-! ### Queue transport (`app/services/queue.py`) -/

/-- Redis state visible to the queue service: for each key the stored
list, and the sequence of messages published on the broadcast channel
(most recent first). -/
structure RedisState where
  lists : String → List String
  channel : List String

/-- One command queued on the Redis pipeline inside
`RedisQueueService.publish_transaction`. -/
inductive RedisCommand where
  | lpush (key payload : String)
  | publishMsg (channel payload : String)

/-- Effect of a single pipelined command: `lpush` prepends to the named
list, `publish` emits one broadcast message. -/
def applyCommand (st : RedisState) (c : RedisCommand) : RedisState :=
  match c with
  | .lpush k p =>
    { st with lists := fun q => if q = k then p :: st.lists q else st.lists q }
  | .publishMsg _ p => { st with channel := p :: st.channel }

/-- Model of `self.processing_queues` (`app/services/queue.py` lines 18-22). -/
def processing_queues : List (String × String) :=
  [("stats", "queue:user_stats"), ("credit", "queue:credit_score"),
   ("notifications", "queue:notifications")]

/-- The batch `publish_transaction` queues on the pipeline: one `lpush`
per processing queue, then one broadcast publish on `transactions:new`
(lines 31-35). -/
def publish_transaction_commands (payload : String) : List RedisCommand :=
  (processing_queues.map fun q => RedisCommand.lpush q.2 payload) ++
    [RedisCommand.publishMsg "transactions:new" payload]

/-- Model of `RedisQueueService.publish_transaction` (lines 27-36).  The pipeline
is opened with `transaction=True` (Redis MULTI/EXEC), so `execute()`
either applies the whole batch atomically or — when the transport fails —
raises without delivering anything; `none` models the raising case. -/
def publish_transaction (payload : String) (transportOk : Bool) (st : RedisState) :
    Option RedisState :=
  if transportOk then
    some ((publish_transaction_commands payload).foldl applyCommand st)
  else none

/-- C5 (confirmed).  Fan-out completeness: a successful publish prepends
the payload to exactly the three delivery lists (every other key is
untouched) and emits exactly one broadcast message, while a failed
transport delivers nothing (`none`: the caller gets the raised error and
no new state exists) — a partial subset is never produced. -/
theorem C5_fanout_all_or_nothing (p : String) (st : RedisState) :
    (∀ k, ((publish_transaction p true st).getD st).lists k =
        if k = "queue:user_stats" ∨ k = "queue:credit_score" ∨ k = "queue:notifications"
        then p :: st.lists k else st.lists k) ∧
    ((publish_transaction p true st).getD st).channel = p :: st.channel ∧
    (publish_transaction p true st).isSome = true ∧
    publish_transaction p false st = none := by
  refine ⟨?_, rfl, rfl, rfl⟩
  intro k
  by_cases h1 : k = "queue:user_stats" <;>
    by_cases h2 : k = "queue:credit_score" <;>
      by_cases h3 : k = "queue:notifications" <;>
        simp_all [publish_transaction, publish_transaction_commands, processing_queues,
          applyCommand]

/-! ### Event snapshot (`app/events/handlers/user_balance_update.py` lines 66-74) -/

/-- The fields of the dispatched balance-update payload that the handler
reads (the `payload[...]` accesses); the payload carries no occurrence
timestamp. -/
structure BalancePayload where
  transaction_id : Nat
  user_id : Nat
  email : String
  amount : Int
  transaction_type : TxType
  full_name : String
deriving DecidableEq, Repr

/-- The queue payload (`TransactionEvent` in `app/schemas/event_schemas.py`). -/
structure TransactionEvent where
  user_id : String
  full_name : String
  email : String
  transaction_amount : Int
  transaction_type : TxType
  transaction_date : Nat
  transaction_id : String
deriving DecidableEq, Repr

/-- Construction of the queue event inside the handler: every field is
copied from the payload except `transaction_date`, which is
`datetime.now()` — the wall clock `now` at processing time. -/
def build_transaction_event (p : BalancePayload) (now : Nat) : TransactionEvent :=
  { transaction_id := toString p.transaction_id
    user_id := toString p.user_id
    email := p.email
    transaction_amount := p.amount
    transaction_type := p.transaction_type
    full_name := p.full_name
    transaction_date := now }

/-- The payload dispatched by `TransactionService.create_transaction`
(`app/services/transaction_service.py` lines 23-28) for a transaction
row, given the identifying fields; it contains
`amount = transaction_amount * 100` and no occurrence date. -/
def dispatch_payload (t : Transaction) (tid uid : Nat) (full_name email : String) :
    BalancePayload :=
  { transaction_id := tid
    user_id := uid
    email := email
    amount := dispatch_amount t
    transaction_type := t.transaction_type
    full_name := full_name }

/-- C6 (counterexample).  A transaction whose occurrence timestamp is 5,
settled when the clock reads 9, produces an event whose
`transaction_date` is 9, not the transaction's occurrence timestamp. -/
theorem C6_counterexample :
    (build_transaction_event
        (dispatch_payload ⟨500, TxType.credit, 5⟩ 1 2 "Jane Doe" "jane@example.com")
        9).transaction_date = 9 ∧
    (⟨500, TxType.credit, 5⟩ : Transaction).transaction_date = 5 ∧
    (9 : Nat) ≠ 5 :=
  ⟨rfl, rfl, by decide⟩

/-- C6 (amended).  The event handed to the queue carries the transaction
id, user id, display name, notification address, amount and type from the
dispatched payload, but its `transaction_date` is the settlement-time
clock reading, not the transaction's occurrence timestamp (which the
payload does not even contain). -/
theorem C6_amended_event_snapshot (p : BalancePayload) (now : Nat) :
    build_transaction_event p now =
      ⟨toString p.user_id, p.full_name, p.email, p.amount, p.transaction_type, now,
        toString p.transaction_id⟩ :=
  rfl

/-! ### Credit-score processor (`app/services/queue.py` lines 58-79) -/

/-- One `process_credit_score` step: read the stored score (`or 700`),
add the type-dependent adjustment (`min(amount / 1000, 5)` for a credit,
`max(-amount / 2000, -3)` otherwise) and clamp the result with
`max(min(current + adjustment, 850), 300)` before storing.  Python float
arithmetic is modelled with exact rationals. -/
def process_credit_score (stored : Option ℚ) (ty : TxType) (amount : ℚ) : ℚ :=
  let current := stored.getD 700
  let adjustment :=
    if ty = TxType.credit then min (amount / 1000) 5 else max (-amount / 2000) (-3)
  max (min (current + adjustment) 850) 300

/-- The per-user stored score after the credit-score worker has consumed a
sequence of events (each `process_credit_score` writes the new score back
to the key it read). -/
def run_credit_score (init : Option ℚ) (txs : List (TxType × ℚ)) : Option ℚ :=
  txs.foldl (fun st tx => some (process_credit_score st tx.1 tx.2)) init

/-- Every single credit-score update lands in `[300, 850]`, whatever the
stored value and amount were: the final `max (min _ 850) 300` clamps. -/
theorem process_credit_score_bounds (stored : Option ℚ) (ty : TxType) (amount : ℚ) :
    300 ≤ process_credit_score stored ty amount ∧
      process_credit_score stored ty amount ≤ 850 := by
  unfold process_credit_score
  exact ⟨le_max_right _ _, max_le (min_le_right _ _) (by norm_num)⟩

/-- C9 (confirmed).  Credit-score bounds: if the initially stored score
(default 700 when absent) lies in `[300, 850]`, then after any sequence
of adjustments the stored score still lies in `[300, 850]`, regardless of
transaction amounts. -/
theorem C9_score_bounds (init : Option ℚ) (txs : List (TxType × ℚ))
    (h₁ : 300 ≤ init.getD 700) (h₂ : init.getD 700 ≤ 850) :
    300 ≤ (run_credit_score init txs).getD 700 ∧
      (run_credit_score init txs).getD 700 ≤ 850 := by
  induction txs generalizing init with
  | nil => exact ⟨h₁, h₂⟩
  | cons tx rest ih =>
    have hb := process_credit_score_bounds init tx.1 tx.2
    have hr := ih (some (process_credit_score init tx.1 tx.2))
      (by simpa using hb.1) (by simpa using hb.2)
    simpa [run_credit_score] using hr

/-- C9 witness: a stored score of 700 is within bounds, and the theorem
applies to the two-event sequence of a huge credit then a huge debit. -/
theorem C9_score_bounds_witness :
    300 ≤ (some (700 : ℚ) : Option ℚ).getD 700 ∧
    (some (700 : ℚ) : Option ℚ).getD 700 ≤ 850 ∧
    (300 ≤ (run_credit_score (some 700)
        [(TxType.credit, 1000000), (TxType.debit, 1000000)]).getD 700 ∧
      (run_credit_score (some 700)
        [(TxType.credit, 1000000), (TxType.debit, 1000000)]).getD 700 ≤ 850) :=
  ⟨by norm_num, by norm_num,
    C9_score_bounds (some 700) [(TxType.credit, 1000000), (TxType.debit, 1000000)]
      (by norm_num) (by norm_num)⟩

/-! ### MD5 (model of the standard library's `hashlib.md5(...).hexdigest()`,
which `_generate_cache_key` applies to over-long parameter segments) -/

/-- Truncation to a 32-bit word. -/
def w32 (x : Nat) : Nat := x % 4294967296

/-- Left rotation on 32-bit words (for `x < 2^32`). -/
def rotl32 (x s : Nat) : Nat := w32 ((x <<< s) ||| (x >>> (32 - s)))

/-- Bitwise complement on 32-bit words. -/
def not32 (x : Nat) : Nat := x ^^^ 4294967295

/-- The 64 MD5 round constants. -/
def md5K : List Nat :=
  [0xd76aa478, 0xe8c7b756, 0x242070db, 0xc1bdceee,
   0xf57c0faf, 0x4787c62a, 0xa8304613, 0xfd469501,
   0x698098d8, 0x8b44f7af, 0xffff5bb1, 0x895cd7be,
   0x6b901122, 0xfd987193, 0xa679438e, 0x49b40821,
   0xf61e2562, 0xc040b340, 0x265e5a51, 0xe9b6c7aa,
   0xd62f105d, 0x02441453, 0xd8a1e681, 0xe7d3fbc8,
   0x21e1cde6, 0xc33707d6, 0xf4d50d87, 0x455a14ed,
   0xa9e3e905, 0xfcefa3f8, 0x676f02d9, 0x8d2a4c8a,
   0xfffa3942, 0x8771f681, 0x6d9d6122, 0xfde5380c,
   0xa4beea44, 0x4bdecfa9, 0xf6bb4b60, 0xbebfbc70,
   0x289b7ec6, 0xeaa127fa, 0xd4ef3085, 0x04881d05,
   0xd9d4d039, 0xe6db99e5, 0x1fa27cf8, 0xc4ac5665,
   0xf4292244, 0x432aff97, 0xab9423a7, 0xfc93a039,
   0x655b59c3, 0x8f0ccc92, 0xffeff47d, 0x85845dd1,
   0x6fa87e4f, 0xfe2ce6e0, 0xa3014314, 0x4e0811a1,
   0xf7537e82, 0xbd3af235, 0x2ad7d2bb, 0xeb86d391]

/-- The per-round shift amounts. -/
def md5S : List Nat :=
  [7, 12, 17, 22, 7, 12, 17, 22, 7, 12, 17, 22, 7, 12, 17, 22,
   5, 9, 14, 20, 5, 9, 14, 20, 5, 9, 14, 20, 5, 9, 14, 20,
   4, 11, 16, 23, 4, 11, 16, 23, 4, 11, 16, 23, 4, 11, 16, 23,
   6, 10, 15, 21, 6, 10, 15, 21, 6, 10, 15, 21, 6, 10, 15, 21]

/-- UTF-8 encoding of one character (Python `str.encode()`). -/
def utf8EncodeChar (c : Char) : List Nat :=
  let n := c.toNat
  if n < 128 then [n]
  else if n < 2048 then [192 + n / 64, 128 + n % 64]
  else if n < 65536 then [224 + n / 4096, 128 + n / 64 % 64, 128 + n % 64]
  else [240 + n / 262144, 128 + n / 4096 % 64, 128 + n / 64 % 64, 128 + n % 64]

/-- UTF-8 bytes of a string. -/
def utf8Bytes (s : String) : List Nat :=
  s.data.flatMap utf8EncodeChar

/-- MD5 padding: append `0x80`, zero-fill so the length is 56 mod 64,
then the 8-byte little-endian bit length. -/
def md5Pad (msg : List Nat) : List Nat :=
  let bitLen := msg.length * 8
  let zeros := (119 - msg.length % 64) % 64
  msg ++ [128] ++ List.replicate zeros 0 ++
    (List.range 8).map fun i => bitLen / 256 ^ i % 256

/-- Split the padded message into 64-byte chunks. -/
def chunks64 (l : List Nat) : List (List Nat) :=
  if h : l = [] then []
  else l.take 64 :: chunks64 (l.drop 64)
termination_by l.length
decreasing_by
  have hpos : 0 < l.length := List.length_pos.mpr h
  simp only [List.length_drop]
  omega

/-- The sixteen 32-bit little-endian words of one 64-byte chunk. -/
def leWords (c : List Nat) : List Nat :=
  (List.range 16).map fun j =>
    c.getD (4 * j) 0 + 256 * c.getD (4 * j + 1) 0 +
      65536 * c.getD (4 * j + 2) 0 + 16777216 * c.getD (4 * j + 3) 0

/-- The four MD5 accumulator words. -/
structure MD5State where
  a : Nat
  b : Nat
  c : Nat
  d : Nat

/-- One of the 64 MD5 rounds on words `m` of the current chunk. -/
def md5Round (m : List Nat) (st : MD5State) (i : Nat) : MD5State :=
  let f :=
    if i < 16 then (st.b &&& st.c) ||| (not32 st.b &&& st.d)
    else if i < 32 then (st.d &&& st.b) ||| (not32 st.d &&& st.c)
    else if i < 48 then st.b ^^^ st.c ^^^ st.d
    else st.c ^^^ (st.b ||| not32 st.d)
  let g :=
    if i < 16 then i
    else if i < 32 then (5 * i + 1) % 16
    else if i < 48 then (3 * i + 5) % 16
    else 7 * i % 16
  let x := w32 (f + st.a + md5K.getD i 0 + m.getD g 0)
  ⟨st.d, w32 (st.b + rotl32 x (md5S.getD i 0)), st.b, st.c⟩

/-- Absorb one 64-byte chunk. -/
def md5Chunk (st : MD5State) (chunk : List Nat) : MD5State :=
  let m := leWords chunk
  let r := (List.range 64).foldl (md5Round m) st
  ⟨w32 (st.a + r.a), w32 (st.b + r.b), w32 (st.c + r.c), w32 (st.d + r.d)⟩

/-- Four little-endian bytes of a 32-bit word. -/
def toLE4 (x : Nat) : List Nat :=
  [x % 256, x / 256 % 256, x / 65536 % 256, x / 16777216 % 256]

/-- The 16-byte MD5 digest of a string's UTF-8 encoding. -/
def md5Bytes (s : String) : List Nat :=
  let st := (chunks64 (md5Pad (utf8Bytes s))).foldl md5Chunk
    ⟨0x67452301, 0xefcdab89, 0x98badcfe, 0x10325476⟩
  toLE4 st.a ++ toLE4 st.b ++ toLE4 st.c ++ toLE4 st.d

/-- Lowercase hexadecimal digit. -/
def hexDigit (k : Nat) : Char :=
  if k < 10 then Char.ofNat (48 + k) else Char.ofNat (87 + k)

/-- The two hex characters of one byte. -/
def hexByte (n : Nat) : List Char :=
  [hexDigit (n / 16 % 16), hexDigit (n % 16)]

/-- Model of `hashlib.md5(s.encode()).hexdigest()`: the 32-character lowercase hex
rendering of the digest. -/
def md5_hexdigest (s : String) : String :=
  String.mk ((md5Bytes s).flatMap hexByte)

theorem md5Bytes_length (s : String) : (md5Bytes s).length = 16 := by
  simp [md5Bytes, toLE4]

theorem flatMap_hexByte_length (l : List Nat) :
    (l.flatMap hexByte).length = 2 * l.length := by
  induction l with
  | nil => rfl
  | cons x xs ih => simp [hexByte, ih]; omega

/-- The hex digest has 32 characters whatever the input is. -/
theorem md5_hexdigest_length (s : String) : (md5_hexdigest s).length = 32 := by
  rw [md5_hexdigest, String.length_mk, flatMap_hexByte_length, md5Bytes_length]

/-! ### Cache key derivation (`CacheManager._generate_cache_key`,
`app/cache.py` lines 39-78) -/

/-- Comparison used by `sorted(..., key=lambda x: x[0])`: order the
`(name, value)` pairs by parameter name. -/
def paramLE (a b : String × String) : Prop := a.1 ≤ b.1

/-- Strict by-name order; sorted lists with distinct names are strictly
sorted. -/
def paramLT (a b : String × String) : Prop := a.1 < b.1

instance : DecidableRel paramLE := fun a b => inferInstanceAs (Decidable (a.1 ≤ b.1))

instance : IsTotal (String × String) paramLE := ⟨fun a b => le_total a.1 b.1⟩

instance : IsTrans (String × String) paramLE := ⟨fun _ _ _ h₁ h₂ => le_trans h₁ h₂⟩

instance : IsAntisymm (String × String) paramLT :=
  ⟨fun _ _ h₁ h₂ => (lt_asymm h₁ h₂).elim⟩

/-- The `(k, v)` pairs of the params dict whose value is not `None`
(`if v is not None`), in dict order.  The dict is modelled as an
association list with distinct keys; values are already rendered to
strings. -/
def presentParams (params : List (String × Option String)) : List (String × String) :=
  params.filterMap fun kv => kv.2.map fun v => (kv.1, v)

/-- Model of `sorted([...], key=lambda x: x[0])`: stable sort by parameter name. -/
def sortedParams (params : List (String × Option String)) : List (String × String) :=
  List.insertionSort paramLE (presentParams params)

/-- Python's `":".join`. -/
def joinColon : List String → String
  | [] => ""
  | [p] => p
  | p :: q :: rest => p ++ ":" ++ joinColon (q :: rest)

/-- The encoded parameter segment:
`":".join(f"{k}_{v}" for k, v in sorted_params)`. -/
def param_string (params : List (String × Option String)) : String :=
  joinColon ((sortedParams params).map fun kv => kv.1 ++ "_" ++ kv.2)

/-- The key parts before the parameter segment: `[namespace]`, then the
optional `prefix`, then `str(identifier)`. -/
def base_key_parts (ns : String) (identifier pfx : Option String) : List String :=
  [ns] ++ pfx.toList ++ identifier.toList

/-- Model of `CacheManager._generate_cache_key`: join the base parts and — when
any non-`None` parameter is present — the encoded parameter segment,
which is replaced by its MD5 hex digest when longer than 100 characters. -/
def generate_cache_key (ns : String) (identifier : Option String)
    (params : List (String × Option String)) (pfx : Option String) : String :=
  if sortedParams params = [] then joinColon (base_key_parts ns identifier pfx)
  else
    joinColon (base_key_parts ns identifier pfx ++
      [if (param_string params).length > 100 then md5_hexdigest (param_string params)
       else param_string params])

theorem presentParams_keys_sublist (l : List (String × Option String)) :
    ((presentParams l).map Prod.fst).Sublist (l.map Prod.fst) := by
  induction l with
  | nil => simp [presentParams]
  | cons kv rest ih =>
    cases h : kv.2 with
    | none =>
      simp only [presentParams, List.filterMap_cons, h, Option.map_none', List.map_cons]
      exact ih.cons kv.1
    | some v =>
      simp only [presentParams, List.filterMap_cons, h, Option.map_some', List.map_cons]
      exact ih.cons₂ kv.1

theorem sorted_strict_of_nodup_keys (l : List (String × String))
    (hs : List.Sorted paramLE l) (hn : (l.map Prod.fst).Nodup) :
    List.Sorted paramLT l := by
  have hn' : l.Pairwise fun a b => a.1 ≠ b.1 := List.pairwise_map.mp hn
  exact (hs.and hn').imp fun h => lt_of_le_of_ne h.1 h.2

/-- Sorting by key sends key-distinct permutations of the present pairs to
the same list. -/
theorem sortedParams_perm_eq (ps₁ ps₂ : List (String × Option String))
    (hperm : ps₁.Perm ps₂) (hnd : (ps₁.map Prod.fst).Nodup) :
    sortedParams ps₁ = sortedParams ps₂ := by
  have hpp : (presentParams ps₁).Perm (presentParams ps₂) := by
    unfold presentParams
    exact hperm.filterMap _
  have hs₁ := List.sorted_insertionSort paramLE (presentParams ps₁)
  have hs₂ := List.sorted_insertionSort paramLE (presentParams ps₂)
  have hnd₁ : ((presentParams ps₁).map Prod.fst).Nodup :=
    hnd.sublist (presentParams_keys_sublist ps₁)
  have hperm₁ : (sortedParams ps₁).Perm (presentParams ps₁) :=
    List.perm_insertionSort paramLE (presentParams ps₁)
  have hperm₂ : (sortedParams ps₂).Perm (presentParams ps₂) :=
    List.perm_insertionSort paramLE (presentParams ps₂)
  have hnds₁ : ((sortedParams ps₁).map Prod.fst).Nodup :=
    ((hperm₁.map Prod.fst).nodup_iff).mpr hnd₁
  have hnds₂ : ((sortedParams ps₂).map Prod.fst).Nodup :=
    ((hperm₂.map Prod.fst).nodup_iff).mpr
      (((hpp.map Prod.fst).nodup_iff).mp hnd₁)
  have hp : (sortedParams ps₁).Perm (sortedParams ps₂) :=
    (hperm₁.trans hpp).trans hperm₂.symm
  exact List.eq_of_perm_of_sorted hp
    (sorted_strict_of_nodup_keys _ hs₁ hnds₁)
    (sorted_strict_of_nodup_keys _ hs₂ hnds₂)

/-- C7 (confirmed).  Cache key determinism: for every namespace, prefix,
identifier and parameter map (an association list with distinct parameter
names, the model of a Python dict), the derived cache key is invariant
under permutation of the map's key order. -/
theorem C7_cache_key_deterministic (ns : String) (identifier pfx : Option String)
    (ps₁ ps₂ : List (String × Option String))
    (hperm : ps₁.Perm ps₂) (hnd : (ps₁.map Prod.fst).Nodup) :
    generate_cache_key ns identifier ps₁ pfx = generate_cache_key ns identifier ps₂ pfx := by
  have hs := sortedParams_perm_eq ps₁ ps₂ hperm hnd
  simp only [generate_cache_key, param_string, hs]

/-- C7 witness: the two orderings of `{skip: 0, limit: 20}` (distinct
keys) derive the identical key. -/
theorem C7_cache_key_deterministic_witness :
    ([("limit", some "20"), ("skip", some "0")] : List (String × Option String)).Perm
        [("skip", some "0"), ("limit", some "20")] ∧
    (([("limit", some "20"), ("skip", some "0")] :
        List (String × Option String)).map Prod.fst).Nodup ∧
    generate_cache_key "transaction" none
        [("limit", some "20"), ("skip", some "0")] (some "list") =
      generate_cache_key "transaction" none
        [("skip", some "0"), ("limit", some "20")] (some "list") :=
  ⟨List.Perm.swap _ _ _, by decide,
    C7_cache_key_deterministic "transaction" none (some "list")
      [("limit", some "20"), ("skip", some "0")]
      [("skip", some "0"), ("limit", some "20")]
      (List.Perm.swap _ _ _) (by decide)⟩

theorem joinColon_append_singleton (l : List String) (x : String) (h : l ≠ []) :
    joinColon (l ++ [x]) = joinColon l ++ ":" ++ x := by
  induction l with
  | nil => exact absurd rfl h
  | cons p rest ih =>
    cases rest with
    | nil => simp [joinColon]
    | cons q rest' =>
      have ih' := ih (List.cons_ne_nil q rest')
      show joinColon (p :: ((q :: rest') ++ [x])) =
        (p ++ ":" ++ joinColon (q :: rest')) ++ ":" ++ x
      calc joinColon (p :: ((q :: rest') ++ [x]))
          = p ++ ":" ++ joinColon ((q :: rest') ++ [x]) := rfl
        _ = p ++ ":" ++ (joinColon (q :: rest') ++ ":" ++ x) := by rw [ih']
        _ = (p ++ ":" ++ joinColon (q :: rest')) ++ ":" ++ x := by
              simp [String.append_assoc]

theorem length_joinColon_append_singleton (l : List String) (x : String) (h : l ≠ []) :
    (joinColon (l ++ [x])).length = (joinColon l).length + 1 + x.length := by
  rw [joinColon_append_singleton l x h]
  simp [String.length_append]
  decide

/-- C8 (confirmed).  Cache key length bound: whenever the encoded
parameter segment exceeds 100 characters, the derived key's parameter
segment is the fixed-length (32-character) MD5 hex digest of that
segment, so the key's total length is the base parts' length plus 33 —
independent of the number and size of the parameters. -/
theorem C8_long_params_hashed (ns : String) (identifier pfx : Option String)
    (params : List (String × Option String))
    (h : 100 < (param_string params).length) :
    generate_cache_key ns identifier params pfx =
      joinColon (base_key_parts ns identifier pfx ++
        [md5_hexdigest (param_string params)]) ∧
    (generate_cache_key ns identifier params pfx).length =
      (joinColon (base_key_parts ns identifier pfx)).length + 33 := by
  have hne : sortedParams params ≠ [] := by
    intro he
    rw [param_string, he] at h
    simp [joinColon] at h
  have hkey : generate_cache_key ns identifier params pfx =
      joinColon (base_key_parts ns identifier pfx ++
        [md5_hexdigest (param_string params)]) := by
    rw [generate_cache_key, if_neg hne, if_pos h]
  refine ⟨hkey, ?_⟩
  rw [hkey,
    length_joinColon_append_singleton _ _ (by simp [base_key_parts]),
    md5_hexdigest_length]

/-- C8 witness: a single parameter whose encoded form has 102 characters
is long enough, and the theorem applies. -/
theorem C8_long_params_hashed_witness :
    100 < (param_string [("k",
      some "aaaaaaaaaaaaaaaaaaaaaaaaaaaaaaaaaaaaaaaaaaaaaaaaaaaaaaaaaaaaaaaaaaaaaaaaaaaaaaaaaaaaaaaaaaaaaaaaaaaaaaaaaaaaaaaaaaaaaaaa")]).length ∧
    (generate_cache_key "transaction" none [("k",
        some "aaaaaaaaaaaaaaaaaaaaaaaaaaaaaaaaaaaaaaaaaaaaaaaaaaaaaaaaaaaaaaaaaaaaaaaaaaaaaaaaaaaaaaaaaaaaaaaaaaaaaaaaaaaaaaaaaaaaaaaa")]
        (some "list") =
      joinColon (base_key_parts "transaction" none (some "list") ++
        [md5_hexdigest (param_string [("k",
          some "aaaaaaaaaaaaaaaaaaaaaaaaaaaaaaaaaaaaaaaaaaaaaaaaaaaaaaaaaaaaaaaaaaaaaaaaaaaaaaaaaaaaaaaaaaaaaaaaaaaaaaaaaaaaaaaaaaaaaaaa")])]) ∧
      (generate_cache_key "transaction" none [("k",
          some "aaaaaaaaaaaaaaaaaaaaaaaaaaaaaaaaaaaaaaaaaaaaaaaaaaaaaaaaaaaaaaaaaaaaaaaaaaaaaaaaaaaaaaaaaaaaaaaaaaaaaaaaaaaaaaaaaaaaaaaa")]
          (some "list")).length =
        (joinColon (base_key_parts "transaction" none (some "list"))).length + 33) :=
  ⟨by decide,
    C8_long_params_hashed "transaction" none (some "list") _ (by decide)⟩

/-! ### Route caching wrapper (`cache_route` in `app/cache.py` lines
135-197 and the `get_transactions` route in
`app/api/routes/transactions.py` lines 45-67) -/

/-- The cache key computed by the `cache_route` wrapper: take the
identifier from the kwargs when `identifier_param` is set, collect the
`include_params` that occur in the kwargs, and call
`_generate_cache_key`. -/
def cache_route_key (ns : String) (pfx : Option String)
    (identifierParam : Option String) (includeParams : List String)
    (kwargs : List (String × Option String)) : String :=
  let identifier :=
    match identifierParam with
    | none => none
    | some p => (kwargs.lookup p).join
  let cacheParams := includeParams.filterMap fun p => (kwargs.lookup p).map fun v => (p, v)
  generate_cache_key ns identifier cacheParams pfx

/-- The wrapper's read path: return the cached response when the key is
present, otherwise the freshly computed one. -/
def wrapper_respond (store : String → Option α) (key : String) (fresh : α) : α :=
  (store key).getD fresh

/-- The cache key of the `get_transactions` route: namespace
`transaction`, `prefix="list"`, no identifier parameter,
`include_params=["skip", "limit"]`; the route's kwargs additionally
contain `order_by`, which the wrapper never reads. -/
def get_transactions_cache_key (skip limit : Nat) (order_by : Option String) : String :=
  cache_route_key "transaction" (some "list") none ["skip", "limit"]
    [("skip", some (toString skip)), ("limit", some (toString limit)),
     ("order_by", order_by)]

/-- C10 (confirmed).  The cached list endpoint's key depends only on
`skip` and `limit`: two invocations that differ only in `order_by` derive
the identical key, and when the first invocation's response is in the
cache, the second invocation is served that cached response. -/
theorem C10_list_cache_key_ignores_order {α : Type} (skip limit : Nat)
    (ob₁ ob₂ : Option String) (store : String → Option α) (v fresh : α)
    (h : store (get_transactions_cache_key skip limit ob₁) = some v) :
    get_transactions_cache_key skip limit ob₂ =
      get_transactions_cache_key skip limit ob₁ ∧
    wrapper_respond store (get_transactions_cache_key skip limit ob₂) fresh = v := by
  have hk : get_transactions_cache_key skip limit ob₂ =
      get_transactions_cache_key skip limit ob₁ := by
    simp [get_transactions_cache_key, cache_route_key, List.lookup]
  exact ⟨hk, by rw [wrapper_respond, hk, h]; rfl⟩

/-- A demonstration cache store holding one entry: the response cached by
a call with `order_by=transaction_date`. -/
def demo_store : String → Option String :=
  fun k =>
    if k = get_transactions_cache_key 0 20 (some "transaction_date") then some "cached"
    else none

/-- C10 witness: with the response of the `order_by=transaction_date`
invocation in the cache, an `order_by=None` invocation with the same
`skip`/`limit` derives the same key and is served the cached response. -/
theorem C10_list_cache_key_ignores_order_witness :
    demo_store (get_transactions_cache_key 0 20 (some "transaction_date")) =
      some "cached" ∧
    (get_transactions_cache_key 0 20 none =
        get_transactions_cache_key 0 20 (some "transaction_date") ∧
      wrapper_respond demo_store (get_transactions_cache_key 0 20 none) "fresh" =
        "cached") :=
  ⟨by simp [demo_store],
    C10_list_cache_key_ignores_order 0 20 (some "transaction_date") none demo_store
      "cached" "fresh" (by simp [demo_store])⟩

end FidoApi
